import Mathlib

/-!
# Shallow embedding of the cholera risk-scoring core

This file embeds the risk scoring engine of the flooding-cholera backend
(`backend/app/services/risk_calculator.py` together with the model helpers in
`backend/app/models/environmental.py` and `backend/app/models/lga.py`) into
Lean 4, and proves the specified properties of the scoring algorithm.

Numbers: Python floats are modelled as exact rationals (`ℚ`).  Dates are
modelled as integers (days).  The database session is modelled as an explicit
`Store` value that each operation threads through.
-/

namespace CholeraRisk

/-- Risk level classification (`RiskLevel` enum in `environmental.py`). -/
inductive RiskLevel where
  | green
  | yellow
  | red
deriving DecidableEq, Repr

/-- A Local Government Area (`LGA` model), restricted to the attributes the
scoring core reads. `none` models a SQL NULL. -/
structure LGA where
  id : ℤ
  name : String
  water_coverage_pct : Option ℚ
  sanitation_coverage_pct : Option ℚ
deriving DecidableEq, Repr

/-- An environmental observation (`EnvironmentalData` model), restricted to
the fields the scoring core reads. -/
structure EnvironmentalData where
  lga_id : ℤ
  observation_date : ℤ
  rainfall_7day_mm : Option ℚ
  rainfall_30day_mm : Option ℚ
  ndwi : Option ℚ
  flood_extent_pct : Option ℚ
deriving DecidableEq, Repr

/-- A case report row (`CaseReport` model), restricted to the fields read by
`get_recent_cases`. -/
structure CaseReport where
  lga_id : ℤ
  report_date : ℤ
  new_cases : ℤ
  deaths : ℤ
deriving DecidableEq, Repr

/-- A persisted risk score row (`RiskScore` model), restricted to the fields
written by `calculate_for_lga`. -/
structure RiskScore where
  lga_id : ℤ
  score_date : ℤ
  score : ℚ
  level : RiskLevel
  flood_score : ℚ
  rainfall_score : ℚ
  case_score : ℚ
  vulnerability_score : ℚ
  rainfall_mm : Option ℚ
  ndwi : Option ℚ
  recent_cases : ℤ
  recent_deaths : ℤ
deriving DecidableEq, Repr

/-- The database state seen by the calculator: the tables it reads and the
`risk_scores` table it writes, plus the current date (`date.today()`). -/
structure Store where
  today : ℤ
  lgas : List LGA
  env_data : List EnvironmentalData
  case_reports : List CaseReport
  risk_scores : List RiskScore
deriving DecidableEq, Repr

/-- Python's `x or default` for an optional float: `None` and `0` are both
falsy, so either is replaced by the default. -/
def orElseFalsy (x : Option ℚ) (default : ℚ) : ℚ :=
  match x with
  | none => default
  | some v => if v = 0 then default else v

/-- Weight factor `W_FLOOD`. -/
def W_FLOOD : ℚ := 0.4
/-- Weight factor `W_RAIN`. -/
def W_RAIN : ℚ := 0.2
/-- Weight factor `W_CASES`. -/
def W_CASES : ℚ := 0.3
/-- Weight factor `W_VULNERABILITY`. -/
def W_VULNERABILITY : ℚ := 0.1
/-- Normalization parameter `MAX_RAINFALL_MM`. -/
def MAX_RAINFALL_MM : ℚ := 200
/-- Normalization parameter `MAX_RECENT_CASES`. -/
def MAX_RECENT_CASES : ℚ := 50

/-- `RiskCalculator.normalize`: normalize a value to the 0-1 range; `None`
and an empty range both give 0. -/
def normalize (value : Option ℚ) (min_val max_val : ℚ) : ℚ :=
  match value with
  | none => 0
  | some v =>
    if max_val = min_val then 0
    else max 0 (min 1 ((v - min_val) / (max_val - min_val)))

/-- `RiskCalculator.calculate_flood_score`. -/
def calculate_flood_score (ndwi flood_extent_pct : Option ℚ) : ℚ :=
  if ndwi = none ∧ flood_extent_pct = none then 0
  else
    let score_ndwi : ℚ :=
      match ndwi with
      | none => 0
      | some n => normalize (some n) (-0.5) 0.8 * 0.6
    let score_extent : ℚ :=
      match flood_extent_pct with
      | none => 0
      | some f => normalize (some f) 0 30 * 0.4
    min 1 (score_ndwi + score_extent)

/-- `RiskCalculator.calculate_rainfall_score`. -/
def calculate_rainfall_score (rainfall_7day_mm rainfall_30day_mm : Option ℚ) : ℚ :=
  match rainfall_7day_mm with
  | none => 0
  | some r7 =>
    let score := normalize (some r7) 0 MAX_RAINFALL_MM
    match rainfall_30day_mm with
    | none => score
    | some r30 =>
      let sustained_score := normalize (some r30) 0 500
      score * 0.7 + sustained_score * 0.3

/-- `RiskCalculator.calculate_case_score`. -/
def calculate_case_score (recent_cases recent_deaths : ℤ) : ℚ :=
  let case_score := normalize (some (recent_cases : ℚ)) 0 MAX_RECENT_CASES
  if recent_deaths > 0 ∧ recent_cases > 0 then
    let cfr : ℚ := (recent_deaths : ℚ) / (recent_cases : ℚ)
    if cfr > 0.05 then min 1 (case_score * 1.3) else case_score
  else case_score

/-- `RiskCalculator.calculate_vulnerability_score`: lower water/sanitation
coverage means higher vulnerability.  Python's `lga.water_coverage_pct or 50`
replaces a falsy value (NULL or 0) by 50. -/
def calculate_vulnerability_score (lga : LGA) : ℚ :=
  let water := orElseFalsy lga.water_coverage_pct 50
  let sanitation := orElseFalsy lga.sanitation_coverage_pct 50
  let water_vuln := 1 - water / 100
  let sanitation_vuln := 1 - sanitation / 100
  water_vuln * 0.5 + sanitation_vuln * 0.5

/-- `RiskScore.get_level_from_score`: classify a composite score. -/
def get_level_from_score (score : ℚ) : RiskLevel :=
  if score < 0.3 then .green
  else if score < 0.6 then .yellow
  else .red

/-- `RiskCalculator.get_recent_cases`: sums of `new_cases` and `deaths` over
the trailing `days`-day window ending today. SQL `SUM` of no rows is NULL and
`result or 0` maps it to 0; summing over the empty list models this. -/
def get_recent_cases (s : Store) (lga_id : ℤ) (days : ℤ := 14) : ℤ × ℤ :=
  let start_date := s.today - days
  let rows := s.case_reports.filter
    (fun c => c.lga_id = lga_id ∧ start_date ≤ c.report_date)
  ((rows.map (fun c => c.new_cases)).sum, (rows.map (fun c => c.deaths)).sum)

/-- `RiskCalculator.get_latest_environmental`: the most recent observation
for the LGA (ordering by `observation_date` descending and taking the first;
among equal dates the earliest-stored row is kept, one stable realization of
the unspecified tie order). -/
def get_latest_environmental (s : Store) (lga_id : ℤ) : Option EnvironmentalData :=
  (s.env_data.filter (fun e => e.lga_id = lga_id)).foldl
    (fun acc e =>
      match acc with
      | none => some e
      | some a => if e.observation_date > a.observation_date then some e else acc)
    none

/-- Python's `round(x, 4)`: round to 4 decimal places.  Modelled as
round-half-up on the exact rational; CPython rounds the binary double
half-to-even, which agrees with this away from exact decimal ties, and the
development only evaluates it away from ties. -/
def round4 (q : ℚ) : ℚ := ((round (q * 10000) : ℤ) : ℚ) / 10000

/-- The structured result payload returned by `calculate_for_lga` on success
(the Python dict, with the `components` and `raw_values` sub-dicts
flattened). -/
structure Payload where
  lga_id : ℤ
  lga_name : String
  score_date : ℤ
  score : ℚ
  level : RiskLevel
  comp_flood : ℚ
  comp_rainfall : ℚ
  comp_cases : ℚ
  comp_vulnerability : ℚ
  raw_rainfall_7day_mm : Option ℚ
  raw_ndwi : Option ℚ
  raw_recent_cases : ℤ
  raw_recent_deaths : ℤ
deriving DecidableEq, Repr

/-- The value returned by `calculate_for_lga`: either the error dict
`{"error": msg}` (region not found) or the full result payload. -/
inductive CalcResult where
  | error (msg : String)
  | ok (payload : Payload)
deriving DecidableEq, Repr

/-- The create-or-update step of `calculate_for_lga`: the first existing row
matching `(lga_id, score_date)` has all its fields overwritten (modelled as
replacement), otherwise the new row is appended (`db.add`). -/
def upsertRisk (rows : List RiskScore) (lga_id score_date : ℤ)
    (record : RiskScore) : List RiskScore :=
  match rows with
  | [] => [record]
  | x :: xs =>
    if x.lga_id = lga_id ∧ x.score_date = score_date then record :: xs
    else x :: upsertRisk xs lga_id score_date record

/-- `RiskCalculator.calculate_for_lga`: compute the risk score for a single
LGA, upsert the `RiskScore` row for `(lga_id, score_date)`, and return the
result payload together with the updated store.  A missing LGA returns the
error dict and leaves the store untouched. -/
def calculate_for_lga (s : Store) (lga_id : ℤ)
    (score_date_arg : Option ℤ := none) : CalcResult × Store :=
  let score_date := score_date_arg.getD s.today
  match s.lgas.find? (fun l => l.id = lga_id) with
  | none => (.error ("LGA " ++ toString lga_id ++ " not found"), s)
  | some lga =>
    let env_data := get_latest_environmental s lga_id
    let case_data := get_recent_cases s lga_id
    let flood_score : ℚ :=
      match env_data with
      | none => 0
      | some e => calculate_flood_score e.ndwi e.flood_extent_pct
    let rainfall_score : ℚ :=
      match env_data with
      | none => 0
      | some e => calculate_rainfall_score e.rainfall_7day_mm e.rainfall_30day_mm
    let rainfall_mm : Option ℚ :=
      match env_data with
      | none => none
      | some e => e.rainfall_7day_mm
    let ndwi : Option ℚ :=
      match env_data with
      | none => none
      | some e => e.ndwi
    let case_score := calculate_case_score case_data.1 case_data.2
    let vulnerability_score := calculate_vulnerability_score lga
    let total_score :=
      flood_score * W_FLOOD +
      rainfall_score * W_RAIN +
      case_score * W_CASES +
      vulnerability_score * W_VULNERABILITY
    let level := get_level_from_score total_score
    let record : RiskScore :=
      { lga_id := lga_id
        score_date := score_date
        score := total_score
        level := level
        flood_score := flood_score
        rainfall_score := rainfall_score
        case_score := case_score
        vulnerability_score := vulnerability_score
        rainfall_mm := rainfall_mm
        ndwi := ndwi
        recent_cases := case_data.1
        recent_deaths := case_data.2 }
    let s2 : Store := { s with risk_scores := upsertRisk s.risk_scores lga_id score_date record }
    (.ok
      { lga_id := lga_id
        lga_name := lga.name
        score_date := score_date
        score := round4 total_score
        level := level
        comp_flood := round4 flood_score
        comp_rainfall := round4 rainfall_score
        comp_cases := round4 case_score
        comp_vulnerability := round4 vulnerability_score
        raw_rainfall_7day_mm := rainfall_mm
        raw_ndwi := ndwi
        raw_recent_cases := case_data.1
        raw_recent_deaths := case_data.2 }, s2)

/-- An entry in the list returned by `calculate_all`: either a per-region
result dict or the caught-exception entry `{lga_id, lga_name, error}`. -/
inductive AllEntry where
  | ok (payload : CalcResult)
  | caught (lga_id : ℤ) (lga_name : String) (msg : String)
deriving DecidableEq, Repr

/-- `RiskCalculator.calculate_all`, abstracted over the per-region step.
The step models `calculate_for_lga` as run against live storage: it returns
the result and updated store, or throws (`Except.error`) — runtime exceptions
(malformed data, persistence failure) are outside the pure embedding, so the
step is a parameter.  An exception is caught: the entry
`{lga_id, lga_name, error}` is recorded and iteration continues with the
remaining regions. -/
def calculate_all_run (step : LGA → Store → Except String (CalcResult × Store)) :
    List LGA → Store → List AllEntry × Store
  | [], s => ([], s)
  | lga :: rest, s =>
    match step lga s with
    | .ok (res, s2) =>
      let (entries, s3) := calculate_all_run step rest s2
      (.ok res :: entries, s3)
    | .error e =>
      let (entries, s2) := calculate_all_run step rest s
      (.caught lga.id lga.name e :: entries, s2)

/-! ## Characterization of `calculate_for_lga` -/

/-- The flood component as computed inside `calculate_for_lga` (0 when the
region has no environmental observation). -/
def floodFor (s : Store) (lga_id : ℤ) : ℚ :=
  match get_latest_environmental s lga_id with
  | none => 0
  | some e => calculate_flood_score e.ndwi e.flood_extent_pct

/-- The rainfall component as computed inside `calculate_for_lga`. -/
def rainFor (s : Store) (lga_id : ℤ) : ℚ :=
  match get_latest_environmental s lga_id with
  | none => 0
  | some e => calculate_rainfall_score e.rainfall_7day_mm e.rainfall_30day_mm

/-- The echoed raw 7-day rainfall inside `calculate_for_lga`. -/
def rainMmFor (s : Store) (lga_id : ℤ) : Option ℚ :=
  match get_latest_environmental s lga_id with
  | none => none
  | some e => e.rainfall_7day_mm

/-- The echoed raw NDWI inside `calculate_for_lga`. -/
def ndwiFor (s : Store) (lga_id : ℤ) : Option ℚ :=
  match get_latest_environmental s lga_id with
  | none => none
  | some e => e.ndwi

/-- The case component as computed inside `calculate_for_lga`. -/
def caseFor (s : Store) (lga_id : ℤ) : ℚ :=
  calculate_case_score (get_recent_cases s lga_id).1 (get_recent_cases s lga_id).2

/-- The weighted composite score as computed inside `calculate_for_lga`. -/
def totalFor (s : Store) (lga : LGA) (lga_id : ℤ) : ℚ :=
  floodFor s lga_id * W_FLOOD +
  rainFor s lga_id * W_RAIN +
  caseFor s lga_id * W_CASES +
  calculate_vulnerability_score lga * W_VULNERABILITY

/-- The `RiskScore` row written by `calculate_for_lga`. -/
def recordFor (s : Store) (lga : LGA) (lga_id score_date : ℤ) : RiskScore :=
  { lga_id := lga_id
    score_date := score_date
    score := totalFor s lga lga_id
    level := get_level_from_score (totalFor s lga lga_id)
    flood_score := floodFor s lga_id
    rainfall_score := rainFor s lga_id
    case_score := caseFor s lga_id
    vulnerability_score := calculate_vulnerability_score lga
    rainfall_mm := rainMmFor s lga_id
    ndwi := ndwiFor s lga_id
    recent_cases := (get_recent_cases s lga_id).1
    recent_deaths := (get_recent_cases s lga_id).2 }

/-- The payload returned by `calculate_for_lga`. -/
def payloadFor (s : Store) (lga : LGA) (lga_id score_date : ℤ) : Payload :=
  { lga_id := lga_id
    lga_name := lga.name
    score_date := score_date
    score := round4 (totalFor s lga lga_id)
    level := get_level_from_score (totalFor s lga lga_id)
    comp_flood := round4 (floodFor s lga_id)
    comp_rainfall := round4 (rainFor s lga_id)
    comp_cases := round4 (caseFor s lga_id)
    comp_vulnerability := round4 (calculate_vulnerability_score lga)
    raw_rainfall_7day_mm := rainMmFor s lga_id
    raw_ndwi := ndwiFor s lga_id
    raw_recent_cases := (get_recent_cases s lga_id).1
    raw_recent_deaths := (get_recent_cases s lga_id).2 }

/-- Unfolding lemma: on a found region, `calculate_for_lga` returns the
payload and upserts the record characterized above. -/
theorem calculate_for_lga_found (s : Store) (lga_id : ℤ) (d : Option ℤ)
    (lga : LGA) (h : s.lgas.find? (fun l => l.id = lga_id) = some lga) :
    calculate_for_lga s lga_id d =
      (.ok (payloadFor s lga lga_id (d.getD s.today)),
       { s with risk_scores := (upsertRisk s.risk_scores lga_id (d.getD s.today)
          (recordFor s lga lga_id (d.getD s.today))) }) := by
  unfold calculate_for_lga
  rw [h]
  rfl

/-- Unfolding lemma: on a missing region, `calculate_for_lga` returns the
error dict and the unchanged store. -/
theorem calculate_for_lga_notfound (s : Store) (lga_id : ℤ) (d : Option ℤ)
    (h : s.lgas.find? (fun l => l.id = lga_id) = none) :
    calculate_for_lga s lga_id d =
      (.error ("LGA " ++ toString lga_id ++ " not found"), s) := by
  unfold calculate_for_lga
  rw [h]

/-! ## Bounds on the component scores -/

theorem normalize_nonneg (v : Option ℚ) (lo hi : ℚ) : 0 ≤ normalize v lo hi := by
  rcases v with _ | x
  · simp [normalize]
  · simp only [normalize]
    split
    · exact le_refl 0
    · exact le_max_left 0 _

theorem normalize_le_one (v : Option ℚ) (lo hi : ℚ) : normalize v lo hi ≤ 1 := by
  rcases v with _ | x
  · simp [normalize]
  · simp only [normalize]
    split
    · exact zero_le_one
    · exact max_le zero_le_one (min_le_left 1 _)

theorem flood_score_nonneg (a b : Option ℚ) : 0 ≤ calculate_flood_score a b := by
  unfold calculate_flood_score
  split
  · exact le_refl 0
  · dsimp only
    refine le_min zero_le_one (add_nonneg ?_ ?_)
    · rcases a with _ | x
      · exact le_refl 0
      · nlinarith [normalize_nonneg (some x) (-0.5) 0.8]
    · rcases b with _ | y
      · exact le_refl 0
      · nlinarith [normalize_nonneg (some y) 0 30]

theorem flood_score_le_one (a b : Option ℚ) : calculate_flood_score a b ≤ 1 := by
  unfold calculate_flood_score
  split
  · exact zero_le_one
  · exact min_le_left 1 _

theorem rainfall_score_nonneg (a b : Option ℚ) : 0 ≤ calculate_rainfall_score a b := by
  unfold calculate_rainfall_score
  rcases a with _ | x
  · exact le_refl 0
  · rcases b with _ | y
    · exact normalize_nonneg _ _ _
    · nlinarith [normalize_nonneg (some x) 0 MAX_RAINFALL_MM,
        normalize_nonneg (some y) 0 500]

theorem rainfall_score_le_one (a b : Option ℚ) : calculate_rainfall_score a b ≤ 1 := by
  unfold calculate_rainfall_score
  rcases a with _ | x
  · exact zero_le_one
  · rcases b with _ | y
    · exact normalize_le_one _ _ _
    · nlinarith [normalize_le_one (some x) 0 MAX_RAINFALL_MM,
        normalize_le_one (some y) 0 500]

theorem case_score_nonneg (c d : ℤ) : 0 ≤ calculate_case_score c d := by
  unfold calculate_case_score
  dsimp only
  split
  · split
    · refine le_min zero_le_one ?_
      nlinarith [normalize_nonneg (some (c : ℚ)) 0 MAX_RECENT_CASES]
    · exact normalize_nonneg _ _ _
  · exact normalize_nonneg _ _ _

theorem case_score_le_one (c d : ℤ) : calculate_case_score c d ≤ 1 := by
  unfold calculate_case_score
  dsimp only
  split
  · split
    · exact min_le_left 1 _
    · exact normalize_le_one _ _ _
  · exact normalize_le_one _ _ _

theorem orElseFalsy_mem (x : Option ℚ) (d : ℚ)
    (hd : 0 ≤ d ∧ d ≤ 100) (h : ∀ v, x = some v → 0 ≤ v ∧ v ≤ 100) :
    0 ≤ orElseFalsy x d ∧ orElseFalsy x d ≤ 100 := by
  rcases x with _ | v
  · exact hd
  · simp only [orElseFalsy]
    split
    · exact hd
    · exact h v rfl

theorem vulnerability_score_mem (lga : LGA)
    (hw : ∀ v, lga.water_coverage_pct = some v → 0 ≤ v ∧ v ≤ 100)
    (hs : ∀ v, lga.sanitation_coverage_pct = some v → 0 ≤ v ∧ v ≤ 100) :
    0 ≤ calculate_vulnerability_score lga ∧ calculate_vulnerability_score lga ≤ 1 := by
  have h1 := orElseFalsy_mem lga.water_coverage_pct 50 (by norm_num) hw
  have h2 := orElseFalsy_mem lga.sanitation_coverage_pct 50 (by norm_num) hs
  unfold calculate_vulnerability_score
  constructor <;> nlinarith [h1.1, h1.2, h2.1, h2.2]

theorem floodFor_nonneg (s : Store) (lga_id : ℤ) : 0 ≤ floodFor s lga_id := by
  unfold floodFor
  rcases get_latest_environmental s lga_id with _ | e
  · exact le_refl 0
  · exact flood_score_nonneg _ _

theorem floodFor_le_one (s : Store) (lga_id : ℤ) : floodFor s lga_id ≤ 1 := by
  unfold floodFor
  rcases get_latest_environmental s lga_id with _ | e
  · exact zero_le_one
  · exact flood_score_le_one _ _

theorem rainFor_nonneg (s : Store) (lga_id : ℤ) : 0 ≤ rainFor s lga_id := by
  unfold rainFor
  rcases get_latest_environmental s lga_id with _ | e
  · exact le_refl 0
  · exact rainfall_score_nonneg _ _

theorem rainFor_le_one (s : Store) (lga_id : ℤ) : rainFor s lga_id ≤ 1 := by
  unfold rainFor
  rcases get_latest_environmental s lga_id with _ | e
  · exact zero_le_one
  · exact rainfall_score_le_one _ _

/-! ## The risk-scores table after an upsert -/

/-- The number of rows stored for a `(lga_id, score_date)` key. -/
def keyCount (rows : List RiskScore) (lga_id score_date : ℤ) : ℕ :=
  (rows.filter (fun r => r.lga_id = lga_id ∧ r.score_date = score_date)).length

theorem upsertRisk_self_mem (rows : List RiskScore) (lga_id score_date : ℤ)
    (r : RiskScore) : r ∈ upsertRisk rows lga_id score_date r := by
  induction rows with
  | nil => exact List.mem_singleton.mpr rfl
  | cons x xs ih =>
    unfold upsertRisk
    split
    · exact List.mem_cons_self _ _
    · exact List.mem_cons_of_mem x ih

theorem keyCount_upsertRisk (rows : List RiskScore) (lga_id score_date : ℤ)
    (r : RiskScore) (h1 : r.lga_id = lga_id) (h2 : r.score_date = score_date) :
    keyCount (upsertRisk rows lga_id score_date r) lga_id score_date =
      max 1 (keyCount rows lga_id score_date) := by
  induction rows with
  | nil => simp [upsertRisk, keyCount, h1, h2]
  | cons x xs ih =>
    unfold upsertRisk
    split
    · rename_i hx
      simp only [keyCount, List.filter_cons] at *
      have hxkey : (decide (x.lga_id = lga_id ∧ x.score_date = score_date)) = true := by
        simp [hx.1, hx.2]
      have hrkey : (decide (r.lga_id = lga_id ∧ r.score_date = score_date)) = true := by
        simp [h1, h2]
      simp [hxkey, hrkey]
    · rename_i hx
      have hxkey : (decide (x.lga_id = lga_id ∧ x.score_date = score_date)) = false := by
        simpa using hx
      simp only [keyCount, List.filter_cons, hxkey] at *
      simpa using ih

theorem upsertRisk_length_of_mem (rows : List RiskScore) (lga_id score_date : ℤ)
    (r : RiskScore)
    (h : ∃ x ∈ rows, x.lga_id = lga_id ∧ x.score_date = score_date) :
    (upsertRisk rows lga_id score_date r).length = rows.length := by
  induction rows with
  | nil => simp at h
  | cons x xs ih =>
    unfold upsertRisk
    split
    · simp
    · rename_i hx
      rcases h with ⟨y, hy, hykey⟩
      rcases List.mem_cons.mp hy with hyx | hyxs
      · exact absurd (hyx ▸ hykey) hx
      · simp only [List.length_cons]
        rw [ih ⟨y, hyxs, hykey⟩]

/-- `payloadFor` does not depend on the `risk_scores` table. -/
theorem payloadFor_risk_irrel (s : Store) (rows : List RiskScore) (lga : LGA)
    (lga_id score_date : ℤ) :
    payloadFor { s with risk_scores := rows } lga lga_id score_date =
      payloadFor s lga lga_id score_date := rfl

/-- `recordFor` does not depend on the `risk_scores` table. -/
theorem recordFor_risk_irrel (s : Store) (rows : List RiskScore) (lga : LGA)
    (lga_id score_date : ℤ) :
    recordFor { s with risk_scores := rows } lga lga_id score_date =
      recordFor s lga lga_id score_date := rfl

/-! ## Concrete test data (used by witnesses and counterexamples) -/

/-- A region matching the end-to-end example of the spec. -/
def lgaMaiduguri : LGA :=
  { id := 1, name := "Maiduguri", water_coverage_pct := some 40,
    sanitation_coverage_pct := some 35 }

/-- A region with no coverage data. -/
def lgaJere : LGA :=
  { id := 2, name := "Jere", water_coverage_pct := none,
    sanitation_coverage_pct := none }

/-- A third region. -/
def lgaKonduga : LGA :=
  { id := 3, name := "Konduga", water_coverage_pct := some 60,
    sanitation_coverage_pct := some 55 }

/-- A store holding the spec's end-to-end example data for region 1. -/
def storeA : Store :=
  { today := 100
    lgas := [lgaMaiduguri]
    env_data := [{ lga_id := 1, observation_date := 95, rainfall_7day_mm := some 150,
                   rainfall_30day_mm := some 400, ndwi := some 0.6,
                   flood_extent_pct := some 20 }]
    case_reports := [{ lga_id := 1, report_date := 95, new_cases := 40, deaths := 3 }]
    risk_scores := [] }

/-- A store whose only environmental field is an NDWI reading, giving a
composite score with more than four decimal places. -/
def storeNdwi : Store :=
  { today := 100
    lgas := [lgaJere]
    env_data := [{ lga_id := 2, observation_date := 90, rainfall_7day_mm := none,
                   rainfall_30day_mm := none, ndwi := some 0.6,
                   flood_extent_pct := none }]
    case_reports := []
    risk_scores := [] }

/-- A store whose region 3 has case reports but no environmental data. -/
def storeNoEnv : Store :=
  { today := 100
    lgas := [lgaKonduga]
    env_data := []
    case_reports := [{ lga_id := 3, report_date := 95, new_cases := 10, deaths := 1 }]
    risk_scores := [] }

/-! ## C2: level classification -/

/-- C2: level classification is a total function of the composite score that
partitions all scores into exactly one of the three levels with
lower-inclusive boundaries: `score < 0.3` is green, `0.3 ≤ score < 0.6` is
yellow, `0.6 ≤ score` is red; in particular the score exactly 0.3 is yellow
and exactly 0.6 is red. -/
theorem level_classification_partition :
    get_level_from_score 0.3 = .yellow ∧ get_level_from_score 0.6 = .red ∧
    ∀ score : ℚ,
      (get_level_from_score score = .green ↔ score < 0.3) ∧
      (get_level_from_score score = .yellow ↔ 0.3 ≤ score ∧ score < 0.6) ∧
      (get_level_from_score score = .red ↔ 0.6 ≤ score) := by
  refine ⟨by norm_num [get_level_from_score], by norm_num [get_level_from_score], ?_⟩
  intro score
  unfold get_level_from_score
  split
  · rename_i h1
    refine ⟨by simp [h1], ?_, ?_⟩
    · simp only [reduceCtorEq, false_iff]
      intro hc
      linarith [hc.1]
    · simp only [reduceCtorEq, false_iff]
      intro hc
      linarith
  · rename_i h1
    split
    · rename_i h2
      refine ⟨by simp [h1], by simp [h1, h2, le_of_not_lt h1], ?_⟩
      simp only [reduceCtorEq, false_iff]
      intro hc
      linarith
    · rename_i h2
      refine ⟨?_, ?_, by simp [le_of_not_lt h2]⟩
      · simp only [reduceCtorEq, false_iff]
        intro hc
        exact h1 hc
      · simp only [reduceCtorEq, false_iff]
        intro hc
        exact h2 hc.2

/-! ## C6: normalize -/

/-- C6: `normalize` is clamped to `[0,1]` for every value (including a
missing one); `normalize(lo, lo, hi) = 0`; `normalize(hi, lo, hi) = 1`
whenever the range is non-degenerate; and a degenerate range (`lo = hi`)
yields 0. -/
theorem normalize_clamped_spec :
    (∀ (v : Option ℚ) (lo hi : ℚ),
        0 ≤ normalize v lo hi ∧ normalize v lo hi ≤ 1) ∧
    (∀ lo hi : ℚ, normalize (some lo) lo hi = 0) ∧
    (∀ lo hi : ℚ, lo ≠ hi → normalize (some hi) lo hi = 1) ∧
    (∀ (v : Option ℚ) (lo : ℚ), normalize v lo lo = 0) := by
  refine ⟨fun v lo hi => ⟨normalize_nonneg v lo hi, normalize_le_one v lo hi⟩, ?_, ?_, ?_⟩
  · intro lo hi
    simp only [normalize]
    split
    · rfl
    · norm_num
  · intro lo hi h
    have hne : hi - lo ≠ 0 := sub_ne_zero.mpr (Ne.symm h)
    simp only [normalize]
    split
    · rename_i heq
      exact absurd heq.symm h
    · rw [div_self hne]
      norm_num
  · intro v lo
    rcases v with _ | x
    · rfl
    · simp [normalize]

/-- Witness for C6 at concrete inputs. -/
theorem normalize_clamped_spec_witness :
    (0 ≤ normalize (some 7) 0 10 ∧ normalize (some 7) 0 10 ≤ 1) ∧
    normalize (some 0) 0 10 = 0 ∧
    normalize (some 10) 0 10 = 1 ∧
    normalize (some 3) 5 5 = 0 :=
  ⟨normalize_clamped_spec.1 (some 7) 0 10,
   normalize_clamped_spec.2.1 0 10,
   normalize_clamped_spec.2.2.1 0 10 (by norm_num),
   normalize_clamped_spec.2.2.2 (some 3) 5⟩

/-! ## C9: case score formula -/

/-- C9: for nonnegative case and death counts the case component is
`normalize(recent_cases, 0, 50)`, boosted to
`min(1, normalize(recent_cases, 0, 50) * 1.3)` exactly when
`recent_cases > 0` and the case fatality rate exceeds 0.05. -/
theorem case_score_formula (recent_cases recent_deaths : ℤ)
    (_hc : 0 ≤ recent_cases) (hd : 0 ≤ recent_deaths) :
    calculate_case_score recent_cases recent_deaths =
      if 0 < recent_cases ∧ (0.05 : ℚ) < (recent_deaths : ℚ) / (recent_cases : ℚ)
      then min 1 (normalize (some (recent_cases : ℚ)) 0 50 * 1.3)
      else normalize (some (recent_cases : ℚ)) 0 50 := by
  unfold calculate_case_score
  dsimp only
  have h50 : MAX_RECENT_CASES = (50 : ℚ) := rfl
  rw [h50]
  split
  · rename_i hpos
    split
    · rename_i hcfr
      rw [if_pos ⟨hpos.2, hcfr⟩]
    · rename_i hcfr
      rw [if_neg]
      intro hcl
      exact hcfr hcl.2
  · rename_i hneg
    rw [if_neg]
    intro hcl
    rcases hcl with ⟨hcpos, hcfr⟩
    apply hneg
    refine ⟨?_, hcpos⟩
    by_contra hdz
    have hd0 : recent_deaths = 0 := le_antisymm (le_of_not_lt hdz) hd
    rw [hd0] at hcfr
    simp only [Int.cast_zero, zero_div] at hcfr
    linarith

/-- Witness for C9: 40 cases and 3 deaths (CFR 7.5%) hit the boosted
branch. -/
theorem case_score_formula_witness :
    calculate_case_score 40 3 = min 1 (normalize (some (40 : ℚ)) 0 50 * 1.3) := by
  rw [case_score_formula 40 3 (by norm_num) (by norm_num)]
  norm_num

/-! ## C10: unknown region -/

/-- C10: when `lga_id` references no stored region, `calculate_for_lga`
returns the distinguishable not-found error dict and leaves the store (so in
particular the `risk_scores` table) completely unchanged. -/
theorem region_notfound_no_write (s : Store) (lga_id : ℤ) (d : Option ℤ)
    (h : ∀ lga ∈ s.lgas, lga.id ≠ lga_id) :
    calculate_for_lga s lga_id d =
      (.error ("LGA " ++ toString lga_id ++ " not found"), s) := by
  have hfind : s.lgas.find? (fun l => l.id = lga_id) = none := by
    rw [List.find?_eq_none]
    intro x hx
    simp [h x hx]
  exact calculate_for_lga_notfound s lga_id d hfind

/-- Witness for C10: region 2 does not exist in `storeA`. -/
theorem region_notfound_no_write_witness :
    calculate_for_lga storeA 2 none =
      (.error ("LGA " ++ toString (2 : ℤ) ++ " not found"), storeA) :=
  region_notfound_no_write storeA 2 none (by decide)

/-! ## C1: composite score -/

/-- C1: for a stored region whose coverage percentages (when set) lie in
`[0,100]`, `calculate_for_lga` succeeds and persists a composite score equal
to `0.4*flood + 0.2*rainfall + 0.3*case + 0.1*vulnerability`, and that score
always lies in `[0,1]`. -/
theorem composite_score_weighted_sum_in_unit (s : Store) (lga_id : ℤ)
    (d : Option ℤ) (lga : LGA)
    (hfind : s.lgas.find? (fun l => l.id = lga_id) = some lga)
    (hw : ∀ v, lga.water_coverage_pct = some v → 0 ≤ v ∧ v ≤ 100)
    (hs : ∀ v, lga.sanitation_coverage_pct = some v → 0 ≤ v ∧ v ≤ 100) :
    ∃ p s2, calculate_for_lga s lga_id d = (.ok p, s2) ∧
      ∃ r ∈ s2.risk_scores,
        r.lga_id = lga_id ∧ r.score_date = d.getD s.today ∧
        r.score = 0.4 * r.flood_score + 0.2 * r.rainfall_score +
          0.3 * r.case_score + 0.1 * r.vulnerability_score ∧
        0 ≤ r.score ∧ r.score ≤ 1 := by
  have hv := vulnerability_score_mem lga hw hs
  have hf1 := floodFor_nonneg s lga_id
  have hf2 := floodFor_le_one s lga_id
  have hr1 := rainFor_nonneg s lga_id
  have hr2 := rainFor_le_one s lga_id
  have hc1 : 0 ≤ caseFor s lga_id := case_score_nonneg _ _
  have hc2 : caseFor s lga_id ≤ 1 := case_score_le_one _ _
  refine ⟨_, _, calculate_for_lga_found s lga_id d lga hfind, ?_⟩
  refine ⟨recordFor s lga lga_id (d.getD s.today),
    upsertRisk_self_mem _ _ _ _, rfl, rfl, ?_, ?_, ?_⟩
  · show totalFor s lga lga_id =
      0.4 * floodFor s lga_id + 0.2 * rainFor s lga_id +
      0.3 * caseFor s lga_id + 0.1 * calculate_vulnerability_score lga
    unfold totalFor W_FLOOD W_RAIN W_CASES W_VULNERABILITY
    ring
  · show 0 ≤ totalFor s lga lga_id
    unfold totalFor W_FLOOD W_RAIN W_CASES W_VULNERABILITY
    nlinarith [hv.1, hv.2]
  · show totalFor s lga lga_id ≤ 1
    unfold totalFor W_FLOOD W_RAIN W_CASES W_VULNERABILITY
    nlinarith [hv.1, hv.2]

/-- Witness for C1 on the spec's end-to-end example store. -/
theorem composite_score_weighted_sum_in_unit_witness :
    ∃ p s2, calculate_for_lga storeA 1 none = (.ok p, s2) ∧
      ∃ r ∈ s2.risk_scores,
        r.lga_id = 1 ∧ r.score_date = (none : Option ℤ).getD storeA.today ∧
        r.score = 0.4 * r.flood_score + 0.2 * r.rainfall_score +
          0.3 * r.case_score + 0.1 * r.vulnerability_score ∧
        0 ≤ r.score ∧ r.score ≤ 1 :=
  composite_score_weighted_sum_in_unit storeA 1 none lgaMaiduguri rfl
    (by intro v hv; injection hv with h; rw [← h]; norm_num)
    (by intro v hv; injection hv with h; rw [← h]; norm_num)

/-! ## C7: missing environmental data -/

/-- C7: for a stored region with no environmental observation the persisted
record has `flood_score = 0` and `rainfall_score = 0`, while the case score
is still computed from the case aggregate and the vulnerability score from
the region's coverage attributes. -/
theorem missing_env_defaults_zero (s : Store) (lga_id : ℤ) (d : Option ℤ)
    (lga : LGA)
    (hfind : s.lgas.find? (fun l => l.id = lga_id) = some lga)
    (henv : s.env_data.filter (fun e => e.lga_id = lga_id) = []) :
    ∃ p s2, calculate_for_lga s lga_id d = (.ok p, s2) ∧
      ∃ r ∈ s2.risk_scores,
        r.lga_id = lga_id ∧ r.score_date = d.getD s.today ∧
        r.flood_score = 0 ∧ r.rainfall_score = 0 ∧
        r.case_score = calculate_case_score
          (get_recent_cases s lga_id).1 (get_recent_cases s lga_id).2 ∧
        r.vulnerability_score = calculate_vulnerability_score lga := by
  have hnone : get_latest_environmental s lga_id = none := by
    unfold get_latest_environmental
    rw [henv]
    rfl
  refine ⟨_, _, calculate_for_lga_found s lga_id d lga hfind, ?_⟩
  refine ⟨recordFor s lga lga_id (d.getD s.today),
    upsertRisk_self_mem _ _ _ _, rfl, rfl, ?_, ?_, rfl, rfl⟩
  · show floodFor s lga_id = 0
    unfold floodFor
    rw [hnone]
  · show rainFor s lga_id = 0
    unfold rainFor
    rw [hnone]

/-- Witness for C7 on a store with cases but no environmental data. -/
theorem missing_env_defaults_zero_witness :
    ∃ p s2, calculate_for_lga storeNoEnv 3 none = (.ok p, s2) ∧
      ∃ r ∈ s2.risk_scores,
        r.lga_id = 3 ∧ r.score_date = (none : Option ℤ).getD storeNoEnv.today ∧
        r.flood_score = 0 ∧ r.rainfall_score = 0 ∧
        r.case_score = calculate_case_score
          (get_recent_cases storeNoEnv 3).1 (get_recent_cases storeNoEnv 3).2 ∧
        r.vulnerability_score = calculate_vulnerability_score lgaKonduga :=
  missing_env_defaults_zero storeNoEnv 3 none lgaKonduga rfl rfl

/-! ## C4: vulnerability component (corrected) -/

/-- Counterexample to C4 as stated: a region with both coverage percentages
equal to 0 gets vulnerability score 1/2, not 1, because `x or 50` in the
source also replaces a zero (falsy) coverage by 50. -/
theorem zero_coverage_vulnerability_cx :
    calculate_vulnerability_score
      { id := 7, name := "ZeroCoverage", water_coverage_pct := some 0,
        sanitation_coverage_pct := some 0 } = 1/2 ∧
    (1/2 : ℚ) ≠ 1 := by
  constructor
  · norm_num [calculate_vulnerability_score, orElseFalsy]
  · norm_num

/-- C4 (amended): the vulnerability component equals
`0.5*(1 - w/100) + 0.5*(1 - s/100)` where a coverage value that is unset
**or equal to 0** is replaced by 50; in particular a region with both
coverages 0 has vulnerability score 0.5, not 1. -/
theorem vulnerability_effective_coverage (lga : LGA) (w sa : ℚ)
    (hw : lga.water_coverage_pct = some w ∧ w ≠ 0 ∨
      (lga.water_coverage_pct = none ∨ lga.water_coverage_pct = some 0) ∧ w = 50)
    (hs : lga.sanitation_coverage_pct = some sa ∧ sa ≠ 0 ∨
      (lga.sanitation_coverage_pct = none ∨ lga.sanitation_coverage_pct = some 0) ∧
        sa = 50) :
    calculate_vulnerability_score lga =
      0.5 * (1 - w / 100) + 0.5 * (1 - sa / 100) := by
  have hweff : orElseFalsy lga.water_coverage_pct 50 = w := by
    rcases hw with ⟨hset, hnz⟩ | ⟨hunset, h50⟩
    · rw [hset]
      simp [orElseFalsy, hnz]
    · rcases hunset with hn | hz
      · rw [hn, h50]
        rfl
      · rw [hz, h50]
        simp [orElseFalsy]
  have hseff : orElseFalsy lga.sanitation_coverage_pct 50 = sa := by
    rcases hs with ⟨hset, hnz⟩ | ⟨hunset, h50⟩
    · rw [hset]
      simp [orElseFalsy, hnz]
    · rcases hunset with hn | hz
      · rw [hn, h50]
        rfl
      · rw [hz, h50]
        simp [orElseFalsy]
  unfold calculate_vulnerability_score
  rw [hweff, hseff]
  ring

/-- Witness for C4 (amended): a region with both coverages 0 is scored as if
both were 50, giving vulnerability 0.5. -/
theorem vulnerability_effective_coverage_witness :
    calculate_vulnerability_score
      { id := 7, name := "ZeroCoverage", water_coverage_pct := some 0,
        sanitation_coverage_pct := some 0 } =
      0.5 * (1 - 50 / 100) + 0.5 * (1 - 50 / 100) :=
  vulnerability_effective_coverage _ 50 50
    (Or.inr ⟨Or.inr rfl, rfl⟩) (Or.inr ⟨Or.inr rfl, rfl⟩)

/-! ## C3: returned versus persisted score (corrected) -/

/-- The composite score carried by a successful result payload. -/
def resultScore : CalcResult → Option ℚ
  | .error _ => none
  | .ok p => some p.score

/-- Counterexample to C3 as stated: on `storeNdwi` the returned payload
carries the score rounded to 4 decimals (2531/10000) while the persisted
record stores the exact composite (329/1300); the two differ. -/
theorem returned_score_not_persisted_cx :
    resultScore (calculate_for_lga storeNdwi 2 none).1 = some (2531/10000) ∧
    ((calculate_for_lga storeNdwi 2 none).2.risk_scores.map
      (fun r => r.score)) = [329/1300] ∧
    (2531/10000 : ℚ) ≠ (329/1300 : ℚ) := by
  have hfound := calculate_for_lga_found storeNdwi 2 none lgaJere rfl
  have htot : totalFor storeNdwi lgaJere 2 = 329/1300 := by
    have henv : get_latest_environmental storeNdwi 2 =
        some { lga_id := 2, observation_date := 90, rainfall_7day_mm := none,
               rainfall_30day_mm := none, ndwi := some 0.6,
               flood_extent_pct := none } := rfl
    have hcase : get_recent_cases storeNdwi 2 = (0, 0) := rfl
    rw [totalFor, floodFor, rainFor, caseFor, henv, hcase]
    norm_num [calculate_flood_score, calculate_rainfall_score, calculate_case_score,
      calculate_vulnerability_score, normalize, orElseFalsy, lgaJere,
      W_FLOOD, W_RAIN, W_CASES, W_VULNERABILITY, MAX_RECENT_CASES, reduceCtorEq]
    rw [if_neg (Option.some_ne_none _)]
    norm_num
  refine ⟨?_, ?_, by norm_num⟩
  · rw [hfound]
    show some (round4 (totalFor storeNdwi lgaJere 2)) = some (2531/10000)
    rw [htot]
    norm_num [round4, round_eq]
  · rw [hfound]
    show [totalFor storeNdwi lgaJere 2] = [329/1300]
    rw [htot]

/-- C3 (amended): for every successful invocation, the `score` field of the
returned payload equals the persisted record's score **rounded to 4 decimal
places** (the record keeps the unrounded composite). -/
theorem returned_score_rounds_persisted (s : Store) (lga_id : ℤ)
    (d : Option ℤ) (p : Payload) (s2 : Store)
    (h : calculate_for_lga s lga_id d = (.ok p, s2)) :
    ∃ r ∈ s2.risk_scores,
      r.lga_id = lga_id ∧ r.score_date = d.getD s.today ∧
      p.score = round4 r.score := by
  cases hfind : s.lgas.find? (fun l => l.id = lga_id) with
  | none =>
    rw [calculate_for_lga_notfound s lga_id d hfind] at h
    exact absurd (congrArg Prod.fst h) (by simp)
  | some lga =>
    rw [calculate_for_lga_found s lga_id d lga hfind] at h
    have hfst : CalcResult.ok (payloadFor s lga lga_id (d.getD s.today)) =
        CalcResult.ok p := congrArg Prod.fst h
    have hsnd : ({ s with risk_scores := (upsertRisk s.risk_scores lga_id
        (d.getD s.today) (recordFor s lga lga_id (d.getD s.today))) } : Store) = s2 :=
      congrArg Prod.snd h
    have hpp : payloadFor s lga lga_id (d.getD s.today) = p := by
      injection hfst
    refine ⟨recordFor s lga lga_id (d.getD s.today), ?_, rfl, rfl, ?_⟩
    · rw [← hsnd]
      exact upsertRisk_self_mem _ _ _ _
    · rw [← hpp]
      rfl

/-- Witness for C3 (amended) on `storeNdwi`. -/
theorem returned_score_rounds_persisted_witness :
    ∃ p s2, calculate_for_lga storeNdwi 2 none = (.ok p, s2) ∧
      ∃ r ∈ s2.risk_scores,
        r.lga_id = 2 ∧ r.score_date = (none : Option ℤ).getD storeNdwi.today ∧
        p.score = round4 r.score := by
  refine ⟨_, _, rfl, ?_⟩
  exact returned_score_rounds_persisted storeNdwi 2 none _ _ rfl

/-! ## C5: idempotent recalculation -/

/-- C5: recomputing for the same `(region, date)` with identical underlying
data yields the same score and level, and the second run updates the single
existing row in place: exactly one row for the key remains and the table does
not grow. -/
theorem recalculation_idempotent (s : Store) (lga_id : ℤ) (d : Option ℤ)
    (p1 p2 : Payload) (s1 s2 : Store)
    (hkey : keyCount s.risk_scores lga_id (d.getD s.today) ≤ 1)
    (h1 : calculate_for_lga s lga_id d = (.ok p1, s1))
    (h2 : calculate_for_lga s1 lga_id d = (.ok p2, s2)) :
    p1.score = p2.score ∧ p1.level = p2.level ∧
    keyCount s2.risk_scores lga_id (d.getD s.today) = 1 ∧
    s2.risk_scores.length = s1.risk_scores.length := by
  cases hfind : s.lgas.find? (fun l => l.id = lga_id) with
  | none =>
    rw [calculate_for_lga_notfound s lga_id d hfind] at h1
    exact absurd (congrArg Prod.fst h1) (by simp)
  | some lga =>
    rw [calculate_for_lga_found s lga_id d lga hfind] at h1
    have hp1 : CalcResult.ok (payloadFor s lga lga_id (d.getD s.today)) =
        CalcResult.ok p1 := congrArg Prod.fst h1
    have hpp1 : payloadFor s lga lga_id (d.getD s.today) = p1 := by
      injection hp1
    have hs1 : ({ s with risk_scores := (upsertRisk s.risk_scores lga_id
        (d.getD s.today) (recordFor s lga lga_id (d.getD s.today))) } : Store) = s1 :=
      congrArg Prod.snd h1
    subst hs1
    have h2e := calculate_for_lga_found
      ({ s with risk_scores := (upsertRisk s.risk_scores lga_id
        (d.getD s.today) (recordFor s lga lga_id (d.getD s.today))) })
      lga_id d lga hfind
    rw [h2e] at h2
    have hp2 : CalcResult.ok (payloadFor s lga lga_id (d.getD s.today)) =
        CalcResult.ok p2 := congrArg Prod.fst h2
    have hpp2 : payloadFor s lga lga_id (d.getD s.today) = p2 := by
      injection hp2
    have hs2 : s2.risk_scores = upsertRisk
        (upsertRisk s.risk_scores lga_id (d.getD s.today)
          (recordFor s lga lga_id (d.getD s.today)))
        lga_id (d.getD s.today) (recordFor s lga lga_id (d.getD s.today)) :=
      (congrArg (fun st => Store.risk_scores st) (congrArg Prod.snd h2)).symm
    refine ⟨by rw [← hpp1, ← hpp2], by rw [← hpp1, ← hpp2], ?_, ?_⟩
    · rw [hs2,
        keyCount_upsertRisk
          (upsertRisk s.risk_scores lga_id (d.getD s.today)
            (recordFor s lga lga_id (d.getD s.today)))
          lga_id (d.getD s.today) (recordFor s lga lga_id (d.getD s.today)) rfl rfl,
        keyCount_upsertRisk s.risk_scores lga_id (d.getD s.today)
          (recordFor s lga lga_id (d.getD s.today)) rfl rfl,
        max_eq_left hkey]
      exact max_self 1
    · rw [hs2]
      exact upsertRisk_length_of_mem _ _ _ _
        ⟨recordFor s lga lga_id (d.getD s.today), upsertRisk_self_mem _ _ _ _,
         rfl, rfl⟩

/-- Witness for C5: two successive runs on `storeNoEnv`. -/
theorem recalculation_idempotent_witness :
    ∃ p1 s1 p2 s2,
      calculate_for_lga storeNoEnv 3 none = (.ok p1, s1) ∧
      calculate_for_lga s1 3 none = (.ok p2, s2) ∧
      p1.score = p2.score ∧ p1.level = p2.level ∧
      keyCount s2.risk_scores 3 ((none : Option ℤ).getD storeNoEnv.today) = 1 ∧
      s2.risk_scores.length = s1.risk_scores.length := by
  have h1 := calculate_for_lga_found storeNoEnv 3 none lgaKonduga rfl
  have h2 := calculate_for_lga_found
    ({ storeNoEnv with risk_scores := (upsertRisk storeNoEnv.risk_scores 3
      ((none : Option ℤ).getD storeNoEnv.today)
      (recordFor storeNoEnv lgaKonduga 3 ((none : Option ℤ).getD storeNoEnv.today))) })
    3 none lgaKonduga rfl
  obtain ⟨ha, hb, hc2, hd2⟩ :=
    recalculation_idempotent storeNoEnv 3 none _ _ _ _ (by decide) h1 h2
  exact ⟨_, _, _, _, h1, h2, ha, hb, hc2, hd2⟩

/-! ## C8: calculate_all isolates per-region failures -/

theorem calculate_all_run_all_ok
    (step : LGA → Store → Except String (CalcResult × Store)) :
    ∀ (rs : List LGA) (s : Store),
      (∀ lga ∈ rs, ∀ st : Store, ∃ res st2, step lga st = .ok (res, st2)) →
      (calculate_all_run step rs s).1.length = rs.length ∧
      ∀ e ∈ (calculate_all_run step rs s).1, ∃ res, e = AllEntry.ok res := by
  intro rs
  induction rs with
  | nil =>
    intro s hok
    refine ⟨rfl, ?_⟩
    intro e he
    simp [calculate_all_run] at he
  | cons r rest ih =>
    intro s hok
    obtain ⟨res, st2, hstep⟩ := hok r (List.mem_cons_self r rest) s
    have hrest := ih st2 (fun lga hm st => hok lga (List.mem_cons_of_mem r hm) st)
    unfold calculate_all_run
    rw [hstep]
    dsimp only
    cases hrec : calculate_all_run step rest st2 with
    | mk entries s3 =>
      rw [hrec] at hrest
      dsimp only at hrest ⊢
      refine ⟨by simp [hrest.1], ?_⟩
      intro e he
      rcases List.mem_cons.mp he with he1 | he2
      · exact ⟨res, he1⟩
      · exact hrest.2 e he2

/-- C8: if the per-region step throws for region `X` (whatever the store
state) and succeeds for every other region, then the batch run over
`pre ++ X :: post` returns, in region-iteration order, one entry per region:
the caught-error entry `{lga_id, lga_name, error}` for `X` surrounded by
ordinary result entries for the other regions — the failure aborts nothing. -/
theorem calculate_all_isolates_failure
    (step : LGA → Store → Except String (CalcResult × Store))
    (post : List LGA) (X : LGA) (m : String)
    (hX : ∀ st : Store, step X st = .error m) :
    ∀ (pre : List LGA) (s : Store),
      (∀ lga ∈ pre ++ post, ∀ st : Store, ∃ res st2, step lga st = .ok (res, st2)) →
      ∃ es1 es2,
        (calculate_all_run step (pre ++ X :: post) s).1 =
          es1 ++ AllEntry.caught X.id X.name m :: es2 ∧
        es1.length = pre.length ∧ es2.length = post.length ∧
        (∀ e ∈ es1, ∃ res, e = AllEntry.ok res) ∧
        (∀ e ∈ es2, ∃ res, e = AllEntry.ok res) := by
  intro pre
  induction pre with
  | nil =>
    intro s hok
    have hall := calculate_all_run_all_ok step post s (fun lga hm st => hok lga hm st)
    cases hrec : calculate_all_run step post s with
    | mk entries s2 =>
      rw [hrec] at hall
      refine ⟨[], entries, ?_, rfl, hall.1, ?_, hall.2⟩
      · show (calculate_all_run step (X :: post) s).1 =
          [] ++ AllEntry.caught X.id X.name m :: entries
        unfold calculate_all_run
        rw [hX s]
        dsimp only
        rw [hrec]
        rfl
      · intro e he
        simp at he
  | cons r rest ih =>
    intro s hok
    obtain ⟨res, st2, hstep⟩ := hok r (List.mem_cons_self r (rest ++ post)) s
    obtain ⟨es1, es2, heq, hl1, hl2, hall1, hall2⟩ :=
      ih st2 (fun lga hm st => hok lga (List.mem_cons_of_mem r hm) st)
    cases hrec : calculate_all_run step (rest ++ X :: post) st2 with
    | mk entries s3 =>
      rw [hrec] at heq
      dsimp only at heq
      refine ⟨AllEntry.ok res :: es1, es2, ?_, by simp [hl1], hl2, ?_, hall2⟩
      · show (calculate_all_run step (r :: (rest ++ X :: post)) s).1 =
          (AllEntry.ok res :: es1) ++ AllEntry.caught X.id X.name m :: es2
        unfold calculate_all_run
        rw [hstep]
        dsimp only
        rw [hrec]
        dsimp only
        rw [heq]
        rfl
      · intro e he
        rcases List.mem_cons.mp he with he1 | he2
        · exact ⟨res, he1⟩
        · exact hall1 e he2

/-- A per-region step that throws on region 2 (corrupted data) and otherwise
runs the real per-region calculation. -/
def stepFail2 : LGA → Store → Except String (CalcResult × Store) :=
  fun lga st =>
    if lga.id = 2 then .error "corrupted data"
    else .ok (calculate_for_lga st lga.id none)

/-- Witness for C8: three regions where the middle one throws. -/
theorem calculate_all_isolates_failure_witness :
    ∃ es1 es2,
      (calculate_all_run stepFail2 ([lgaMaiduguri] ++ lgaJere :: [lgaKonduga])
        storeA).1 =
        es1 ++ AllEntry.caught lgaJere.id lgaJere.name "corrupted data" :: es2 ∧
      es1.length = [lgaMaiduguri].length ∧ es2.length = [lgaKonduga].length ∧
      (∀ e ∈ es1, ∃ res, e = AllEntry.ok res) ∧
      (∀ e ∈ es2, ∃ res, e = AllEntry.ok res) :=
  calculate_all_isolates_failure stepFail2 [lgaKonduga] lgaJere "corrupted data"
    (fun st => rfl) [lgaMaiduguri] storeA
    (by
      intro lga hm st
      rcases List.mem_cons.mp hm with h1 | hm2
      · subst h1
        exact ⟨(calculate_for_lga st lgaMaiduguri.id none).1,
          (calculate_for_lga st lgaMaiduguri.id none).2, rfl⟩
      · rcases List.mem_cons.mp hm2 with h2 | hm3
        · subst h2
          exact ⟨(calculate_for_lga st lgaKonduga.id none).1,
            (calculate_for_lga st lgaKonduga.id none).2, rfl⟩
        · simp at hm3)
